import Mathlib

/-!
Verification of the `WrapperConnection` read-API client and its response
transformers (`src/scripts/createAndMint.ts`, the module beginning at the
`WrapperConnection` imports).

The embedding mirrors the TypeScript source:
* JSON values exchanged with the endpoint are modelled by `JsValue`, with
  JavaScript truthiness (`JsValue.truthy`) as used by the source's
  `if (!result)` and `(before || after)` checks.  (`NaN` is not modelled:
  numbers are integers here.)
* The HTTP layer (`fetch`, `response.ok`, `response.json()`) is a parameter
  of every client call: a `Transport` maps the posted JSON-RPC wire request
  to an outcome.  Each client method returns, besides its result, the list
  of wire requests actually issued, so "no network call was made" is the
  statement that this list is empty.
* TypeScript return-type annotations perform no runtime decoding, so the
  client methods return the raw `JsValue` taken from the response envelope.
* Thrown errors become `Except.error`.  `ReadApiError(message, cause)` is
  `ClientError.readApi`; a JavaScript `TypeError` raised by destructuring
  `const { result } = body` when `body` is `null`/`undefined` is
  `ClientError.typeError`.
-/

/-- A JavaScript runtime error value, as attached to `ReadApiError` as its
`cause`: a `name` (e.g. "Error", "TypeError", "SyntaxError") and a message. -/
structure ErrorVal where
  name : String
  message : String
deriving DecidableEq

/-- Errors that can escape a client call.  `readApi` models the source's
`ReadApiError` (message plus optional cause, cf. `class ReadApiError extends
MetaplexError`); `typeError` models a plain JavaScript `TypeError` raised
outside any try/catch. -/
inductive ClientError where
  | readApi (message : String) (cause : Option ErrorVal)
  | typeError (message : String)
deriving DecidableEq

/-- Whether an error is the uniform `ReadApiError` kind. -/
def ClientError.isReadApi : ClientError → Bool
  | .readApi _ _ => true
  | .typeError _ => false

/-- JSON/JavaScript values as they appear in request params and parsed
response bodies.  `undefined` cannot be produced by `JSON.parse` but arises
from property access on objects lacking the key. -/
inductive JsValue where
  | null
  | undefined
  | bool (b : Bool)
  | num (n : Int)
  | str (s : String)
  | arr (elems : List JsValue)
  | obj (fields : List (String × JsValue))

/-- JavaScript truthiness: `null`, `undefined`, `false`, `0` and `""` are
falsy; every object and array (even empty) is truthy. -/
def JsValue.truthy : JsValue → Bool
  | .null => false
  | .undefined => false
  | .bool b => b
  | .num n => decide (n ≠ 0)
  | .str s => !s.isEmpty
  | .arr _ => true
  | .obj _ => true

/-- Property lookup on a parsed JSON object's field list; with duplicate
keys the last occurrence wins (as in `JSON.parse`), and a missing key gives
`undefined`. -/
def getFieldD (fields : List (String × JsValue)) (key : String) : JsValue :=
  fields.foldl (fun acc kv => if kv.fst = key then kv.snd else acc) .undefined

/-- The destructuring `const { result } = v`.  On `null`/`undefined` it
throws a `TypeError`; on an object it yields the property (or `undefined`);
on any other primitive or array it yields `undefined`. -/
def destructure (v : JsValue) (key : String) : Except ClientError JsValue :=
  match v with
  | .null =>
      .error (.typeError ("Cannot destructure property " ++ key ++ " of null"))
  | .undefined =>
      .error (.typeError ("Cannot destructure property " ++ key ++ " of undefined"))
  | .obj fields => .ok (getFieldD fields key)
  | _ => .ok .undefined

/-- A base-58 public key as handled by the client: the SDK's `PublicKey`
wraps the address string (validation of base-58 shape and 32-byte length is
the external SDK's contract and is not re-checked by this repository). -/
structure PublicKey where
  base58 : String
deriving DecidableEq

/-- Models `new PublicKey(s)`. -/
def PublicKey.ofBase58 (s : String) : PublicKey := ⟨s⟩

/-- Models `pk.toBase58()`. -/
def PublicKey.toBase58 (pk : PublicKey) : String := pk.base58

/-- The base-58 alphabet used by Solana addresses. -/
def base58Alphabet : List Char :=
  "123456789ABCDEFGHJKLMNPQRSTUVWXYZabcdefghijkmnopqrstuvwxyz".toList

/-- Numeric value of one base-58 digit (defined as the alphabet index; for
a character outside the alphabet — excluded by the SDK's validation — this
yields the alphabet length). -/
def base58DigitVal (c : Char) : Nat := base58Alphabet.indexOf c

/-- Value denoted by a base-58 string (most significant digit first). -/
def base58ToNat (s : String) : Nat :=
  s.toList.foldl (fun acc c => acc * 58 + base58DigitVal c) 0

/-- Little-endian byte array of fixed length, as produced by
`new BN(n).toArray("le", len)` for values that fit in `len` bytes. -/
def bnToArrayLE : Nat → Nat → List Nat
  | _, 0 => []
  | n, len + 1 => n % 256 :: bnToArrayLE (n / 256) len

/-- Value denoted by a little-endian byte array. -/
def decodeLE : List Nat → Nat
  | [] => 0
  | b :: rest => b + 256 * decodeLE rest

/-- Models `pk.toBuffer()`: the 32-byte big-endian representation of the
decoded base-58 value (exact for valid 32-byte keys, the SDK's contract). -/
def PublicKey.toBuffer (pk : PublicKey) : List Nat :=
  (bnToArrayLE (base58ToNat pk.base58) 32).reverse

/-- UTF-8 bytes of an ASCII string literal (for ASCII, UTF-8 bytes coincide
with the code points); models `Buffer.from(s, "utf-8")` for the literals
used by the source. -/
def utf8Ascii (s : String) : List Nat := s.toList.map Char.toNat

/-- The JSON-RPC request as built by a client method before the envelope is
added: method name, optional id, params (cf. `type RpcRequest<T>`). -/
structure RpcRequest where
  method : String
  id : Option String
  params : JsValue

/-- The JSON body actually POSTed by `callReadApi`:
`{jsonrpc: "2.0", method, id: request.id ?? "rpd-op-123", params}`. -/
structure WireRequest where
  jsonrpc : String
  method : String
  id : String
  params : JsValue

/-- Envelope construction performed inside `callReadApi`. -/
def mkWire (req : RpcRequest) : WireRequest :=
  { jsonrpc := "2.0"
    method := req.method
    id := req.id.getD "rpd-op-123"
    params := req.params }

/-- Outcome of one `fetch` of a wire request: the promise rejects
(`netError`, carrying the runtime error), or a response arrives with its
`ok` flag, its `status`, and the outcome of `response.json()` (a parse
error or a parsed value; the body is only ever parsed when `ok` is true). -/
inductive FetchOutcome where
  | netError (e : ErrorVal)
  | response (ok : Bool) (status : Nat) (body : Except ErrorVal JsValue)

/-- The HTTP layer a client call runs against. -/
def Transport : Type := WireRequest → FetchOutcome

/-- Models `WrapperConnection.callReadApi`: POST the envelope, throw
`Error("HTTP " + status)` when `!response.ok`, parse the body, and wrap any
failure of these steps in `ReadApiError("Failed to call ReadAPI", cause)`.
The second component lists the wire requests issued (here always one). -/
def callReadApi (t : Transport) (req : RpcRequest) :
    Except ClientError JsValue × List WireRequest :=
  match t (mkWire req) with
  | .netError e =>
      (.error (.readApi "Failed to call ReadAPI" (some e)), [mkWire req])
  | .response ok status body =>
      if ok then
        match body with
        | .error e =>
            (.error (.readApi "Failed to call ReadAPI" (some e)), [mkWire req])
        | .ok v => (.ok v, [mkWire req])
      else
        (.error (.readApi "Failed to call ReadAPI"
          (some ⟨"Error", "HTTP " ++ toString status⟩)), [mkWire req])

/-- The pagination validation error message thrown by `validatePagination`. -/
def paginationErrorMsg : String :=
  "Pagination Error. Only one pagination parameter supported per query."

/-- JavaScript truthiness of an optional cursor string, as tested by the
source's `(before || after)`: absent (or `null`) and the empty string are
falsy. -/
def strTruthy : Option String → Bool
  | none => false
  | some s => !s.isEmpty

/-- Models `WrapperConnection.validatePagination(page, before, after)`:
throws exactly when `typeof page === "number" && (before || after)`. -/
def validatePagination (page : Option Int) (before after : Option String) :
    Except ClientError Unit :=
  if page.isSome && (strTruthy before || strTruthy after) then
    .error (.readApi paginationErrorMsg none)
  else
    .ok ()

/-- The result-unwrapping block each client method repeats inline after its
`callReadApi` call: `const { result } = <body>; if (!result) throw new
ReadApiError(<noResultMsg>); return result;` (only the message text varies
between the four methods).  The issued-request list is passed through. -/
def unwrapResult :
    Except ClientError JsValue × List WireRequest → String →
    Except ClientError JsValue × List WireRequest
  | (.error e, calls), _ => (.error e, calls)
  | (.ok body, calls), noResultMsg =>
      match destructure body "result" with
      | .error e => (.error e, calls)
      | .ok result =>
          if result.truthy then (.ok result, calls)
          else (.error (.readApi noResultMsg none), calls)

/-- Models `WrapperConnection.getAsset(assetId)`: params
`{id: assetId.toBase58()}`, no-result message "No asset returned". -/
def getAsset (t : Transport) (assetId : PublicKey) :
    Except ClientError JsValue × List WireRequest :=
  unwrapResult
    (callReadApi t
      { method := "getAsset", id := none
        params := .obj [("id", .str assetId.toBase58)] })
    "No asset returned"

/-- Models `WrapperConnection.getAssetProof(assetId)`: params
`{id: assetId.toBase58()}`, no-result message "No asset proof returned". -/
def getAssetProof (t : Transport) (assetId : PublicKey) :
    Except ClientError JsValue × List WireRequest :=
  unwrapResult
    (callReadApi t
      { method := "getAssetProof", id := none
        params := .obj [("id", .str assetId.toBase58)] })
    "No asset proof returned"

/-- Input of `getAssetsByOwner` (field list per `GetAssetsByOwnerRpcInput`
of the read-API types module, cf. spec section 6: `{ownerAddress, page,
before, after, limit, sortBy}`).  `none` stands for an absent (or `null`)
optional field — the two are indistinguishable to the source, which only
applies `?? null` and truthiness tests to them.  `sortBy` is kept as an
opaque JSON value. -/
structure GetAssetsByOwnerRpcInput where
  ownerAddress : String
  page : Option Int := none
  before : Option String := none
  after : Option String := none
  limit : Option Int := none
  sortBy : Option JsValue := none

/-- Input of `getAssetsByGroup` (`{groupKey, groupValue, page, before,
after, limit, sortBy}`). -/
structure GetAssetsByGroupRpcInput where
  groupKey : String
  groupValue : String
  page : Option Int := none
  before : Option String := none
  after : Option String := none
  limit : Option Int := none
  sortBy : Option JsValue := none

/-- The params object POSTed by `getAssetsByOwner`: `{...input, page:
input.page ?? 1, before: input.before ?? null, after: input.after ?? null,
limit: input.limit ?? null, sortBy: input.sortBy ?? null}` — caller-supplied
fields pass through, omitted optionals are normalized to explicit defaults. -/
def ownerRequestParams (input : GetAssetsByOwnerRpcInput) : JsValue :=
  .obj
    [ ("ownerAddress", .str input.ownerAddress)
    , ("page", .num (input.page.getD 1))
    , ("before", (input.before.map JsValue.str).getD .null)
    , ("after", (input.after.map JsValue.str).getD .null)
    , ("limit", (input.limit.map JsValue.num).getD .null)
    , ("sortBy", input.sortBy.getD .null) ]

/-- The params object POSTed by `getAssetsByGroup`, with the same
normalization as `ownerRequestParams`. -/
def groupRequestParams (input : GetAssetsByGroupRpcInput) : JsValue :=
  .obj
    [ ("groupKey", .str input.groupKey)
    , ("groupValue", .str input.groupValue)
    , ("page", .num (input.page.getD 1))
    , ("before", (input.before.map JsValue.str).getD .null)
    , ("after", (input.after.map JsValue.str).getD .null)
    , ("limit", (input.limit.map JsValue.num).getD .null)
    , ("sortBy", input.sortBy.getD .null) ]

/-- Models `WrapperConnection.getAssetsByOwner(input)`: validate pagination
first (throwing before any network call), then POST the normalized params,
then unwrap `result` with no-result message "No results returned". -/
def getAssetsByOwner (t : Transport) (input : GetAssetsByOwnerRpcInput) :
    Except ClientError JsValue × List WireRequest :=
  match validatePagination input.page input.before input.after with
  | .error e => (.error e, [])
  | .ok _ =>
      unwrapResult
        (callReadApi t
          { method := "getAssetsByOwner", id := none
            params := ownerRequestParams input })
        "No results returned"

/-- Models `WrapperConnection.getAssetsByGroup(input)`: same contract as
`getAssetsByOwner`, scoped by `groupKey`/`groupValue`. -/
def getAssetsByGroup (t : Transport) (input : GetAssetsByGroupRpcInput) :
    Except ClientError JsValue × List WireRequest :=
  match validatePagination input.page input.before input.after with
  | .error e => (.error e, [])
  | .ok _ =>
      unwrapResult
        (callReadApi t
          { method := "getAssetsByGroup", id := none
            params := groupRequestParams input })
        "No results returned"

/-!
The read-API asset representation and the three response transformers.
Field lists follow the use sites in `toNftEditionFromReadApiAsset`,
`toMintFromReadApiAsset` and `toMetadataFromReadApiAsset` together with the
spec's data-model section (the `ReadApi/types` module itself only declares
these TypeScript shapes).
-/

/-- One entry of an asset's `authorities` list: `{address, scopes}`. -/
structure ReadApiAssetAuthority where
  address : String
  scopes : List String
deriving DecidableEq

/-- One entry of an asset's `grouping` list: `{group_key, group_value}`. -/
structure ReadApiAssetGrouping where
  group_key : String
  group_value : String
deriving DecidableEq

/-- The asset's `compression` block; the transformers read `tree` and
`leaf_id` and attach the whole block unchanged. -/
structure ReadApiAssetCompression where
  tree : String
  leaf_id : Nat
deriving DecidableEq

/-- The asset's `supply` block. -/
structure ReadApiAssetSupply where
  print_current_supply : Int
  print_max_supply : Int
  edition_nonce : Int
deriving DecidableEq

/-- The asset's `royalty` block. -/
structure ReadApiAssetRoyalty where
  basis_points : Int
  primary_sale_happened : Bool
deriving DecidableEq

/-- The optional `content.metadata` JSON, of which the transformer reads
the optional `name` and `symbol`. -/
structure ReadApiAssetContentMetadata where
  name : Option String
  symbol : Option String
deriving DecidableEq

/-- The asset's `content` block. -/
structure ReadApiAssetContent where
  json_uri : String
  metadata : Option ReadApiAssetContentMetadata
deriving DecidableEq

/-- One creator entry, copied verbatim by the metadata transformer. -/
structure ReadApiAssetCreator where
  address : String
  share : Int
  verified : Bool
deriving DecidableEq

/-- A raw read-API asset as consumed by the transformers.  `authorities` is
optional (the source guards it with `input.authorities?.find`); `mutable`
is the asset's mutability flag. -/
structure ReadApiAsset where
  id : String
  authorities : Option (List ReadApiAssetAuthority)
  grouping : List ReadApiAssetGrouping
  compression : ReadApiAssetCompression
  supply : ReadApiAssetSupply
  royalty : ReadApiAssetRoyalty
  content : ReadApiAssetContent
  creators : List ReadApiAssetCreator
  mutable : Bool

/-- SPL token currency descriptor (`SplTokenCurrency`); the source field
`namespace` is a reserved word in Lean and is rendered `tokenNamespace`. -/
structure SplTokenCurrency where
  symbol : String
  decimals : Int
  tokenNamespace : String
deriving DecidableEq

/-- An SPL token amount as returned by the SDK's `amount(n, currency)`. -/
structure SplTokenAmount where
  basisPoints : Int
  currency : SplTokenCurrency
deriving DecidableEq

/-- Models the SDK helper `amount(n, currency)`. -/
def amount (n : Int) (c : SplTokenCurrency) : SplTokenAmount := ⟨n, c⟩

/-- The `NftOriginalEdition` view produced by `toNftEditionFromReadApiAsset`. -/
structure NftOriginalEdition where
  model : String
  isOriginal : Bool
  address : PublicKey
  supply : Int
  maxSupply : Int
deriving DecidableEq

/-- The `Mint` view produced by `toMintFromReadApiAsset`. -/
structure Mint where
  model : String
  address : PublicKey
  mintAuthorityAddress : PublicKey
  freezeAuthorityAddress : PublicKey
  decimals : Int
  supply : SplTokenAmount
  isWrappedSol : Bool
  currency : SplTokenCurrency
deriving DecidableEq

/-- A program-derived address as the SDK's `Pda.find(programId, seeds)`
determines it: the actual hash derivation lives in the external SDK, so the
address is embedded as its derivation inputs (program id and seed bytes),
which is exactly the determinism contract the transformer relies on. -/
structure Pda where
  programId : PublicKey
  seeds : List (List Nat)
deriving DecidableEq

/-- Models `Pda.find(programId, seeds)` (and the `.data` projection the
source applies to its result). -/
def Pda.find (programId : PublicKey) (seeds : List (List Nat)) : Pda :=
  ⟨programId, seeds⟩

/-- The Bubblegum program id imported as `BUBBLEGUM_PROGRAM_ID`. -/
def BUBBLEGUM_PROGRAM_ID : PublicKey :=
  ⟨"BGUMAp9Gq7iTEuizy4pqaxsTyUCBK68MDJK1vzLCCtEv"⟩

/-- Token standards of the token-metadata SDK; only `NonFungible` is used. -/
inductive TokenStandard where
  | NonFungible
  | FungibleAsset
  | Fungible
  | NonFungibleEdition
deriving DecidableEq

/-- A collection reference inside a `Metadata` view. -/
structure MetadataCollection where
  address : PublicKey
  verified : Bool
deriving DecidableEq

/-- The `Metadata` view produced by `toMetadataFromReadApiAsset`.  The
constant-`null` SDK fields (`collectionDetails`, `uses`,
`programmableConfig`) are carried as `Option Unit`. -/
structure Metadata where
  model : String
  address : Pda
  mintAddress : PublicKey
  updateAuthorityAddress : PublicKey
  name : String
  symbol : String
  json : Option ReadApiAssetContentMetadata
  jsonLoaded : Bool
  uri : String
  isMutable : Bool
  primarySaleHappened : Bool
  sellerFeeBasisPoints : Int
  creators : List ReadApiAssetCreator
  editionNonce : Int
  tokenStandard : TokenStandard
  collection : Option MetadataCollection
  compression : ReadApiAssetCompression
  collectionDetails : Option Unit
  uses : Option Unit
  programmableConfig : Option Unit

/-- Models `toNftEditionFromReadApiAsset`. -/
def toNftEditionFromReadApiAsset (input : ReadApiAsset) : NftOriginalEdition :=
  { model := "nftEdition"
    isOriginal := true
    address := PublicKey.ofBase58 input.id
    supply := input.supply.print_current_supply
    maxSupply := input.supply.print_max_supply }

/-- Models `toMintFromReadApiAsset`. -/
def toMintFromReadApiAsset (input : ReadApiAsset) : Mint :=
  let currency : SplTokenCurrency :=
    { symbol := "Token", decimals := 0, tokenNamespace := "spl-token" }
  { model := "mint"
    address := PublicKey.ofBase58 input.id
    mintAuthorityAddress := PublicKey.ofBase58 input.id
    freezeAuthorityAddress := PublicKey.ofBase58 input.id
    decimals := 0
    supply := amount 1 currency
    isWrappedSol := false
    currency := currency }

/-- Whether an authority entry carries the `"full"` scope, as tested by
`a.scopes.includes("full")`. -/
def hasFullScope (a : ReadApiAssetAuthority) : Bool :=
  a.scopes.contains "full"

/-- Models `toMetadataFromReadApiAsset`.  `input.authorities?.find(...)`
is `none` both when `authorities` is absent and when no entry matches;
in that case the source throws `ReadApiError("No update authority with
full scope found.")`. -/
def toMetadataFromReadApiAsset (input : ReadApiAsset) :
    Except ClientError Metadata :=
  match input.authorities.bind (fun l => l.find? hasFullScope) with
  | none => .error (.readApi "No update authority with full scope found." none)
  | some updateAuthority =>
      let collection := input.grouping.find?
        (fun g => g.group_key == "collection")
      .ok
        { model := "metadata"
          address := Pda.find BUBBLEGUM_PROGRAM_ID
            [ utf8Ascii "asset"
            , (PublicKey.ofBase58 input.compression.tree).toBuffer
            , bnToArrayLE input.compression.leaf_id 8 ]
          mintAddress := PublicKey.ofBase58 input.id
          updateAuthorityAddress := PublicKey.ofBase58 updateAuthority.address
          name := (input.content.metadata.bind (fun m => m.name)).getD ""
          symbol := (input.content.metadata.bind (fun m => m.symbol)).getD ""
          json := input.content.metadata
          jsonLoaded := true
          uri := input.content.json_uri
          isMutable := input.mutable
          primarySaleHappened := input.royalty.primary_sale_happened
          sellerFeeBasisPoints := input.royalty.basis_points
          creators := input.creators
          editionNonce := input.supply.edition_nonce
          tokenStandard := .NonFungible
          collection := collection.map
            (fun c => { address := PublicKey.ofBase58 c.group_value, verified := false })
          compression := input.compression
          collectionDetails := none
          uses := none
          programmableConfig := none }

/-!
Helper lemmas about the fixed-length little-endian encoding used in the
metadata PDA seeds.
-/

theorem bnToArrayLE_length (n len : Nat) : (bnToArrayLE n len).length = len := by
  induction len generalizing n with
  | zero => rfl
  | succ k ih => simp [bnToArrayLE, ih]

theorem decodeLE_bnToArrayLE (n len : Nat) :
    decodeLE (bnToArrayLE n len) = n % 256 ^ len := by
  induction len generalizing n with
  | zero => simp [bnToArrayLE, decodeLE, Nat.mod_one]
  | succ k ih =>
      simp only [bnToArrayLE, decodeLE, ih, pow_succ']
      have h1 : n % (256 * 256 ^ k) % 256 = n % 256 :=
        Nat.mod_mod_of_dvd n ⟨256 ^ k, rfl⟩
      have h2 : n % (256 * 256 ^ k) / 256 = n / 256 % 256 ^ k :=
        Nat.mod_mul_right_div_self n 256 (256 ^ k)
      have h3 := Nat.div_add_mod (n % (256 * 256 ^ k)) 256
      omega

/-- Concrete sample data for witnesses. -/
def authFull : ReadApiAssetAuthority := ⟨"Auth1", ["full"]⟩

/-- An authority without the `"full"` scope. -/
def authOther : ReadApiAssetAuthority := ⟨"Auth2", ["royalty"]⟩

/-- Sample asset builder for witnesses: fixed id/compression/supply/royalty/
content, parameterised by authorities and grouping. -/
def mkAsset (auths : Option (List ReadApiAssetAuthority))
    (grp : List ReadApiAssetGrouping) : ReadApiAsset :=
  { id := "Addr1"
    authorities := auths
    grouping := grp
    compression := ⟨"Tree1", 42⟩
    supply := ⟨0, 0, 0⟩
    royalty := ⟨100, false⟩
    content := ⟨"https://uri", some ⟨some "Name", some "SYM"⟩⟩
    creators := []
    mutable := false }

/-- C6: an asset whose authorities list (absent lists included) has no
entry with the `"full"` scope makes `toMetadataFromReadApiAsset` fail with
the domain-mapping `ReadApiError`, and when such an authority is found the
returned metadata's `updateAuthorityAddress` is exactly that authority's
address — no default is substituted. -/
theorem toMetadata_full_scope_authority :
    (∀ (input : ReadApiAsset),
        (∀ a ∈ input.authorities.getD [], hasFullScope a = false) →
        toMetadataFromReadApiAsset input =
          .error (.readApi "No update authority with full scope found." none)) ∧
    (∀ (input : ReadApiAsset) (l : List ReadApiAssetAuthority)
        (a : ReadApiAssetAuthority),
        input.authorities = some l → l.find? hasFullScope = some a →
        ∃ m, toMetadataFromReadApiAsset input = .ok m ∧
          m.updateAuthorityAddress = PublicKey.ofBase58 a.address) := by
  constructor
  · intro input h
    have hnone : input.authorities.bind (fun l => l.find? hasFullScope) = none := by
      cases hau : input.authorities with
      | none => rfl
      | some l =>
          have : l.find? hasFullScope = none := by
            apply List.find?_eq_none.mpr
            intro x hx
            have hx' := h x (by rw [hau]; exact hx)
            simp [hx']
          simp [this]
    unfold toMetadataFromReadApiAsset
    rw [hnone]
  · intro input l a hau hfind
    have hsome : input.authorities.bind (fun l => l.find? hasFullScope) = some a := by
      rw [hau]
      simpa using hfind
    unfold toMetadataFromReadApiAsset
    rw [hsome]
    exact ⟨_, rfl, rfl⟩

/-- Witness for C6, at a concrete asset with no full-scope authority and at
one with a full-scope authority. -/
theorem toMetadata_full_scope_authority_witness :
    toMetadataFromReadApiAsset (mkAsset (some [authOther]) []) =
      .error (.readApi "No update authority with full scope found." none) ∧
    ∃ m, toMetadataFromReadApiAsset (mkAsset (some [authFull]) []) = .ok m ∧
      m.updateAuthorityAddress = PublicKey.ofBase58 authFull.address :=
  ⟨toMetadata_full_scope_authority.1 (mkAsset (some [authOther]) []) (by decide),
   toMetadata_full_scope_authority.2 (mkAsset (some [authFull]) [])
     [authFull] authFull rfl (by decide)⟩

/-- C7: under the full-scope-authority precondition, an asset whose
grouping has no `"collection"` entry yields metadata with `collection =
none` (no failure), and when a `"collection"` entry exists the returned
collection reference carries that entry's `group_value` as address and
`verified = false` in every case. -/
theorem toMetadata_collection_grouping (input : ReadApiAsset)
    (a : ReadApiAssetAuthority)
    (hfull : input.authorities.bind (fun l => l.find? hasFullScope) = some a) :
    ((∀ g ∈ input.grouping, (g.group_key == "collection") = false) →
      ∃ m, toMetadataFromReadApiAsset input = .ok m ∧ m.collection = none) ∧
    (∀ g, input.grouping.find? (fun g => g.group_key == "collection") = some g →
      ∃ m, toMetadataFromReadApiAsset input = .ok m ∧
        m.collection = some ⟨PublicKey.ofBase58 g.group_value, false⟩) := by
  constructor
  · intro h
    have hnone : input.grouping.find? (fun g => g.group_key == "collection") = none := by
      apply List.find?_eq_none.mpr
      intro g hg
      simp [h g hg]
    unfold toMetadataFromReadApiAsset
    rw [hfull]
    refine ⟨_, rfl, ?_⟩
    simp only [hnone, Option.map_none']
  · intro g hg
    unfold toMetadataFromReadApiAsset
    rw [hfull]
    refine ⟨_, rfl, ?_⟩
    simp only [hg, Option.map_some']

/-- Witness for C7: a concrete asset without any `"collection"` grouping
entry and one with the entry `{group_key: "collection", group_value:
"Coll1"}`. -/
theorem toMetadata_collection_grouping_witness :
    (∃ m, toMetadataFromReadApiAsset (mkAsset (some [authFull]) []) = .ok m ∧
      m.collection = none) ∧
    (∃ m, toMetadataFromReadApiAsset
        (mkAsset (some [authFull]) [⟨"collection", "Coll1"⟩]) = .ok m ∧
      m.collection = some ⟨PublicKey.ofBase58 "Coll1", false⟩) :=
  ⟨(toMetadata_collection_grouping (mkAsset (some [authFull]) []) authFull
      (by decide)).1 (by decide),
   (toMetadata_collection_grouping
      (mkAsset (some [authFull]) [⟨"collection", "Coll1"⟩]) authFull
      (by decide)).2 ⟨"collection", "Coll1"⟩ (by decide)⟩

/-- C8: under the full-scope-authority precondition, the metadata-account
address is the program-derived address of the Bubblegum program with
exactly the seeds: the UTF-8 bytes of the literal `"asset"` (97 115 115
101 116), the tree address bytes, and the leaf index as an 8-byte
little-endian integer (the encoding is length 8 and decodes back to the
leaf index whenever it fits in 8 bytes). -/
theorem toMetadata_pda_seeds (input : ReadApiAsset)
    (a : ReadApiAssetAuthority)
    (hfull : input.authorities.bind (fun l => l.find? hasFullScope) = some a) :
    ∃ m, toMetadataFromReadApiAsset input = .ok m ∧
      m.address = Pda.find BUBBLEGUM_PROGRAM_ID
        [ utf8Ascii "asset"
        , (PublicKey.ofBase58 input.compression.tree).toBuffer
        , bnToArrayLE input.compression.leaf_id 8 ] ∧
      utf8Ascii "asset" = [97, 115, 115, 101, 116] ∧
      (bnToArrayLE input.compression.leaf_id 8).length = 8 ∧
      (input.compression.leaf_id < 256 ^ 8 →
        decodeLE (bnToArrayLE input.compression.leaf_id 8) =
          input.compression.leaf_id) := by
  unfold toMetadataFromReadApiAsset
  rw [hfull]
  refine ⟨_, rfl, rfl, by decide, bnToArrayLE_length _ 8, fun h => ?_⟩
  rw [decodeLE_bnToArrayLE]
  exact Nat.mod_eq_of_lt h

/-- Witness for C8 at a concrete asset (tree `"Tree1"`, leaf index 42). -/
theorem toMetadata_pda_seeds_witness :
    ∃ m, toMetadataFromReadApiAsset (mkAsset (some [authFull]) []) = .ok m ∧
      m.address = Pda.find BUBBLEGUM_PROGRAM_ID
        [ utf8Ascii "asset"
        , (PublicKey.ofBase58 (mkAsset (some [authFull]) []).compression.tree).toBuffer
        , bnToArrayLE (mkAsset (some [authFull]) []).compression.leaf_id 8 ] ∧
      utf8Ascii "asset" = [97, 115, 115, 101, 116] ∧
      (bnToArrayLE (mkAsset (some [authFull]) []).compression.leaf_id 8).length = 8 ∧
      ((mkAsset (some [authFull]) []).compression.leaf_id < 256 ^ 8 →
        decodeLE (bnToArrayLE (mkAsset (some [authFull]) []).compression.leaf_id 8) =
          (mkAsset (some [authFull]) []).compression.leaf_id) :=
  toMetadata_pda_seeds (mkAsset (some [authFull]) []) authFull (by decide)

/-- C9: `toMintFromReadApiAsset` is total and always returns a descriptor
with decimals 0, supply of exactly 1 basis unit in a 0-decimal currency,
and the asset's own address as mint address, mint authority and freeze
authority. -/
theorem toMint_fixed_descriptor (input : ReadApiAsset) :
    (toMintFromReadApiAsset input).decimals = 0 ∧
    (toMintFromReadApiAsset input).supply =
      amount 1 ⟨"Token", 0, "spl-token"⟩ ∧
    (toMintFromReadApiAsset input).supply.currency.decimals = 0 ∧
    (toMintFromReadApiAsset input).mintAuthorityAddress =
      PublicKey.ofBase58 input.id ∧
    (toMintFromReadApiAsset input).freezeAuthorityAddress =
      PublicKey.ofBase58 input.id ∧
    (toMintFromReadApiAsset input).address = PublicKey.ofBase58 input.id :=
  ⟨rfl, rfl, rfl, rfl, rfl, rfl⟩

/-!
Plumbing lemmas: one call to `callReadApi` issues exactly its one wire
request, and the result-unwrapping step issues none of its own.
-/

theorem callReadApi_snd (t : Transport) (req : RpcRequest) :
    (callReadApi t req).snd = [mkWire req] := by
  unfold callReadApi
  cases t (mkWire req) with
  | netError e => rfl
  | response ok status body =>
      cases ok with
      | false => rfl
      | true =>
          cases body with
          | error e => rfl
          | ok v => rfl

theorem unwrapResult_snd (out : Except ClientError JsValue × List WireRequest)
    (msg : String) : (unwrapResult out msg).snd = out.snd := by
  rcases out with ⟨r, calls⟩
  cases r with
  | error e => rfl
  | ok body =>
      simp only [unwrapResult]
      split
      · rfl
      · split <;> rfl

/-- A transport whose every response is HTTP 200 with parsed body
`{result: {total: 1}}`, for the concrete counterexamples. -/
def okTransport : Transport := fun _ =>
  .response true 200 (.ok (.obj [("result", .obj [("total", .num 1)])]))

/-- C1 (amended): a numeric page together with a non-empty (truthy) before
or after cursor makes `getAssetsByOwner` and `getAssetsByGroup` fail with
the pagination `ReadApiError` while issuing no wire request at all,
whatever the transport would answer. -/
theorem page_with_cursor_fails_before_network :
    (∀ (t : Transport) (input : GetAssetsByOwnerRpcInput),
        input.page.isSome = true →
        (strTruthy input.before || strTruthy input.after) = true →
        getAssetsByOwner t input =
          (.error (.readApi paginationErrorMsg none), [])) ∧
    (∀ (t : Transport) (input : GetAssetsByGroupRpcInput),
        input.page.isSome = true →
        (strTruthy input.before || strTruthy input.after) = true →
        getAssetsByGroup t input =
          (.error (.readApi paginationErrorMsg none), [])) := by
  constructor
  · intro t input h1 h2
    simp [getAssetsByOwner, validatePagination, h1, h2]
  · intro t input h1 h2
    simp [getAssetsByGroup, validatePagination, h1, h2]

/-- Witness for C1 at a concrete page-plus-cursor input for each method. -/
theorem page_with_cursor_fails_before_network_witness :
    getAssetsByOwner okTransport
        { ownerAddress := "X", page := some 1, before := some "curA" } =
      (.error (.readApi paginationErrorMsg none), []) ∧
    getAssetsByGroup okTransport
        { groupKey := "collection", groupValue := "C"
          page := some 2, after := some "curB" } =
      (.error (.readApi paginationErrorMsg none), []) :=
  ⟨page_with_cursor_fails_before_network.1 okTransport
      { ownerAddress := "X", page := some 1, before := some "curA" } rfl rfl,
   page_with_cursor_fails_before_network.2 okTransport
      { groupKey := "collection", groupValue := "C"
        page := some 2, after := some "curB" } rfl rfl⟩

/-- Counterexample to C1 as stated: the input
`{ownerAddress: "X", page: 1, before: ""}` carries a numeric page together
with a before cursor (the empty string), yet the call is not rejected —
the truthiness test `(before || after)` treats `""` as absent, so a wire
request is issued and the call succeeds. -/
theorem page_with_empty_cursor_not_rejected :
    (getAssetsByOwner okTransport
        { ownerAddress := "X", page := some 1, before := some "" }).snd.length
      = 1 ∧
    (getAssetsByOwner okTransport
        { ownerAddress := "X", page := some 1, before := some "" }).fst
      = .ok (.obj [("total", .num 1)]) :=
  ⟨rfl, rfl⟩

/-- C2 (amended): the only pagination combination rejected before the
network call is a numeric page together with a non-empty before or after
cursor; every other combination — in particular a before-cursor together
with an after-cursor and no page — passes validation and the wire request
is issued. -/
theorem pagination_validation_exact_condition :
    (∀ (t : Transport) (input : GetAssetsByOwnerRpcInput),
        (input.page.isSome && (strTruthy input.before || strTruthy input.after))
            = true →
        getAssetsByOwner t input =
          (.error (.readApi paginationErrorMsg none), [])) ∧
    (∀ (t : Transport) (input : GetAssetsByOwnerRpcInput),
        (input.page.isSome && (strTruthy input.before || strTruthy input.after))
            = false →
        (getAssetsByOwner t input).snd =
          [mkWire { method := "getAssetsByOwner", id := none
                    params := ownerRequestParams input }]) ∧
    (∀ (t : Transport) (input : GetAssetsByGroupRpcInput),
        (input.page.isSome && (strTruthy input.before || strTruthy input.after))
            = true →
        getAssetsByGroup t input =
          (.error (.readApi paginationErrorMsg none), [])) ∧
    (∀ (t : Transport) (input : GetAssetsByGroupRpcInput),
        (input.page.isSome && (strTruthy input.before || strTruthy input.after))
            = false →
        (getAssetsByGroup t input).snd =
          [mkWire { method := "getAssetsByGroup", id := none
                    params := groupRequestParams input }]) := by
  refine ⟨fun t input h => ?_, fun t input h => ?_, fun t input h => ?_,
    fun t input h => ?_⟩
  · simp [getAssetsByOwner, validatePagination, h]
  · have hval : validatePagination input.page input.before input.after = .ok () := by
      simp [validatePagination, h]
    unfold getAssetsByOwner
    rw [hval]
    rw [unwrapResult_snd, callReadApi_snd]
  · simp [getAssetsByGroup, validatePagination, h]
  · have hval : validatePagination input.page input.before input.after = .ok () := by
      simp [validatePagination, h]
    unfold getAssetsByGroup
    rw [hval]
    rw [unwrapResult_snd, callReadApi_snd]

/-- Witness for C2: a rejected page-plus-cursor input and an accepted
cursor-only input, for each method. -/
theorem pagination_validation_exact_condition_witness :
    getAssetsByOwner okTransport
        { ownerAddress := "X", page := some 1, after := some "c" } =
      (.error (.readApi paginationErrorMsg none), []) ∧
    (getAssetsByOwner okTransport
        { ownerAddress := "X", before := some "c" }).snd =
      [mkWire { method := "getAssetsByOwner", id := none
                params := ownerRequestParams
                  { ownerAddress := "X", before := some "c" } }] ∧
    getAssetsByGroup okTransport
        { groupKey := "collection", groupValue := "C"
          page := some 3, before := some "c" } =
      (.error (.readApi paginationErrorMsg none), []) ∧
    (getAssetsByGroup okTransport
        { groupKey := "collection", groupValue := "C"
          after := some "c" }).snd =
      [mkWire { method := "getAssetsByGroup", id := none
                params := groupRequestParams
                  { groupKey := "collection", groupValue := "C"
                    after := some "c" } }] :=
  ⟨pagination_validation_exact_condition.1 okTransport
      { ownerAddress := "X", page := some 1, after := some "c" } rfl,
   pagination_validation_exact_condition.2.1 okTransport
      { ownerAddress := "X", before := some "c" } rfl,
   pagination_validation_exact_condition.2.2.1 okTransport
      { groupKey := "collection", groupValue := "C"
        page := some 3, before := some "c" } rfl,
   pagination_validation_exact_condition.2.2.2 okTransport
      { groupKey := "collection", groupValue := "C"
        after := some "c" } rfl⟩

/-- Counterexample to C2 as stated: setting both a before-cursor and an
after-cursor (with no page) is not rejected — the request goes out and the
call succeeds. -/
theorem before_and_after_not_rejected :
    (getAssetsByGroup okTransport
        { groupKey := "collection", groupValue := "C"
          before := some "A", after := some "B" }).snd.length = 1 ∧
    (getAssetsByGroup okTransport
        { groupKey := "collection", groupValue := "C"
          before := some "A", after := some "B" }).fst =
      .ok (.obj [("total", .num 1)]) :=
  ⟨rfl, rfl⟩

/-!
Characterization lemmas for the two stages of every client call.
-/

theorem callReadApi_ok_iff (t : Transport) (req : RpcRequest) (v : JsValue) :
    (callReadApi t req).fst = .ok v ↔
      ∃ s, t (mkWire req) = .response true s (.ok v) := by
  unfold callReadApi
  cases ht : t (mkWire req) with
  | netError e => simp
  | response ok status body =>
      cases ok with
      | false => simp
      | true =>
          cases body with
          | error e => simp
          | ok w =>
              constructor
              · intro h
                simp at h
                exact ⟨status, by rw [h]⟩
              · rintro ⟨s, hs⟩
                simp at hs
                simp [hs]

theorem callReadApi_error_isReadApi (t : Transport) (req : RpcRequest)
    (e : ClientError) (h : (callReadApi t req).fst = .error e) :
    e.isReadApi = true := by
  unfold callReadApi at h
  cases ht : t (mkWire req) with
  | netError e0 =>
      rw [ht] at h
      simp at h
      rw [← h]
      rfl
  | response ok status body =>
      rw [ht] at h
      cases ok with
      | false =>
          simp at h
          rw [← h]
          rfl
      | true =>
          cases body with
          | error e0 =>
              simp at h
              rw [← h]
              rfl
          | ok w => simp at h

theorem unwrapResult_ok_iff (out : Except ClientError JsValue × List WireRequest)
    (msg : String) (v : JsValue) :
    (unwrapResult out msg).fst = .ok v ↔
      ∃ body, out.fst = .ok body ∧ destructure body "result" = .ok v ∧
        v.truthy = true := by
  rcases out with ⟨r, calls⟩
  cases r with
  | error e => simp [unwrapResult]
  | ok body =>
      simp only [unwrapResult]
      rcases hd : destructure body "result" with e | w
      · simp [hd]
      · by_cases htr : w.truthy = true
        · simp only [htr, if_true]
          constructor
          · intro h
            simp at h
            exact ⟨body, rfl, by rw [← h]; exact hd, by rw [← h]; exact htr⟩
          · rintro ⟨body', hb, hdb, htv⟩
            simp at hb
            rw [← hb] at hdb
            rw [hd] at hdb
            simp at hdb
            simp [hdb]
        · simp only [htr, if_false]
          constructor
          · intro h
            simp at h
          · rintro ⟨body', hb, hdb, htv⟩
            simp at hb
            rw [← hb] at hdb
            rw [hd] at hdb
            simp at hdb
            rw [hdb] at htr
            exact absurd htv htr

theorem unwrapResult_error_cases
    (out : Except ClientError JsValue × List WireRequest) (msg : String)
    (e : ClientError) (h : (unwrapResult out msg).fst = .error e) :
    out.fst = .error e ∨
    (∃ body, out.fst = .ok body ∧ destructure body "result" = .error e) ∨
    e = .readApi msg none := by
  rcases out with ⟨r, calls⟩
  cases r with
  | error e0 =>
      simp [unwrapResult] at h
      left
      simp [h]
  | ok body =>
      simp only [unwrapResult] at h
      rcases hd : destructure body "result" with e0 | w
      · rw [hd] at h
        simp at h
        right; left
        exact ⟨body, rfl, by rw [hd, h]⟩
      · rw [hd] at h
        by_cases htr : w.truthy = true
        · simp [htr] at h
        · simp [htr] at h
          right; right
          rw [h]

theorem destructure_not_nullish (v : JsValue) (key : String)
    (h1 : v ≠ .null) (h2 : v ≠ .undefined) :
    ∃ r, destructure v key = .ok r := by
  cases v with
  | null => exact absurd rfl h1
  | undefined => exact absurd rfl h2
  | bool b => exact ⟨_, rfl⟩
  | num n => exact ⟨_, rfl⟩
  | str s => exact ⟨_, rfl⟩
  | arr xs => exact ⟨_, rfl⟩
  | obj fields => exact ⟨_, rfl⟩

theorem validatePagination_error (page : Option Int) (before after : Option String)
    (e : ClientError) (h : validatePagination page before after = .error e) :
    e = .readApi paginationErrorMsg none := by
  unfold validatePagination at h
  by_cases hc : (page.isSome && (strTruthy before || strTruthy after)) = true
  · rw [if_pos hc] at h
    simp at h
    rw [h]
  · rw [if_neg hc] at h
    simp at h

/-- C3: for every asset-list call that passes pagination validation, the
one issued wire request carries the JSON-RPC 2.0 envelope with the fixed
default id and the normalized params: caller-supplied fields pass through
unchanged, `page` defaults to 1 and `before`/`after`/`limit`/`sortBy`
default to null; in particular `getAssetsByOwner({ownerAddress: "X"})`
sends params `{ownerAddress: "X", page: 1, before: null, after: null,
limit: null, sortBy: null}`. -/
theorem asset_list_params_normalized :
    (∀ (t : Transport) (input : GetAssetsByOwnerRpcInput),
        validatePagination input.page input.before input.after = .ok () →
        (getAssetsByOwner t input).snd =
          [⟨"2.0", "getAssetsByOwner", "rpd-op-123", ownerRequestParams input⟩]) ∧
    (∀ (t : Transport) (input : GetAssetsByGroupRpcInput),
        validatePagination input.page input.before input.after = .ok () →
        (getAssetsByGroup t input).snd =
          [⟨"2.0", "getAssetsByGroup", "rpd-op-123", groupRequestParams input⟩]) ∧
    ownerRequestParams { ownerAddress := "X" } =
      .obj
        [ ("ownerAddress", .str "X"), ("page", .num 1), ("before", .null)
        , ("after", .null), ("limit", .null), ("sortBy", .null) ] ∧
    (∀ (oa b a : String) (p l : Int) (s : JsValue),
        ownerRequestParams
            { ownerAddress := oa, page := some p, before := some b
              after := some a, limit := some l, sortBy := some s } =
          .obj
            [ ("ownerAddress", .str oa), ("page", .num p), ("before", .str b)
            , ("after", .str a), ("limit", .num l), ("sortBy", s) ]) ∧
    (∀ (gk gv : String) (input : GetAssetsByGroupRpcInput),
        input.groupKey = gk → input.groupValue = gv →
        input.page = none → input.before = none → input.after = none →
        input.limit = none → input.sortBy = none →
        groupRequestParams input =
          .obj
            [ ("groupKey", .str gk), ("groupValue", .str gv), ("page", .num 1)
            , ("before", .null), ("after", .null), ("limit", .null)
            , ("sortBy", .null) ]) := by
  refine ⟨fun t input h => ?_, fun t input h => ?_, rfl, fun oa b a p l s => rfl,
    fun gk gv input h1 h2 h3 h4 h5 h6 h7 => ?_⟩
  · unfold getAssetsByOwner
    rw [h, unwrapResult_snd, callReadApi_snd]
    rfl
  · unfold getAssetsByGroup
    rw [h, unwrapResult_snd, callReadApi_snd]
    rfl
  · simp [groupRequestParams, h1, h2, h3, h4, h5, h6, h7]

/-- Witness for C3 at a concrete owner input and group input. -/
theorem asset_list_params_normalized_witness :
    (getAssetsByOwner okTransport { ownerAddress := "X" }).snd =
      [⟨"2.0", "getAssetsByOwner", "rpd-op-123",
        ownerRequestParams { ownerAddress := "X" }⟩] ∧
    (getAssetsByGroup okTransport
        { groupKey := "collection", groupValue := "Coll1" }).snd =
      [⟨"2.0", "getAssetsByGroup", "rpd-op-123",
        groupRequestParams { groupKey := "collection", groupValue := "Coll1" }⟩] :=
  ⟨asset_list_params_normalized.1 okTransport { ownerAddress := "X" } rfl,
   asset_list_params_normalized.2.1 okTransport
     { groupKey := "collection", groupValue := "Coll1" } rfl⟩

/-- C4: a successful `getAsset` returns exactly (and only) the truthy
`result` value carried by the endpoint's parsed response — never a partial
or undefined value — and whenever the parsed body's `result` property is
falsy (absent included), the call fails with the protocol "No asset
returned" `ReadApiError`. -/
theorem getAsset_exact_result_or_protocol_error :
    (∀ (t : Transport) (pk : PublicKey) (v : JsValue),
        (getAsset t pk).fst = .ok v →
        v.truthy = true ∧
        ∃ s body,
          t (mkWire { method := "getAsset", id := none
                      params := .obj [("id", .str pk.toBase58)] }) =
            .response true s (.ok body) ∧
          destructure body "result" = .ok v) ∧
    (∀ (t : Transport) (pk : PublicKey) (s : Nat) (body r : JsValue),
        t (mkWire { method := "getAsset", id := none
                    params := .obj [("id", .str pk.toBase58)] }) =
          .response true s (.ok body) →
        destructure body "result" = .ok r →
        r.truthy = false →
        (getAsset t pk).fst = .error (.readApi "No asset returned" none)) := by
  constructor
  · intro t pk v h
    unfold getAsset at h
    rw [unwrapResult_ok_iff] at h
    rcases h with ⟨body, hcall, hd, htr⟩
    rw [callReadApi_ok_iff] at hcall
    rcases hcall with ⟨s, hs⟩
    exact ⟨htr, s, body, hs, hd⟩
  · intro t pk s body r hresp hd htr
    unfold getAsset
    have hcall : callReadApi t
        { method := "getAsset", id := none
          params := .obj [("id", .str pk.toBase58)] } =
        (.ok body,
          [mkWire { method := "getAsset", id := none
                    params := .obj [("id", .str pk.toBase58)] }]) := by
      unfold callReadApi
      rw [hresp]
      rfl
    rw [hcall]
    simp only [unwrapResult]
    rw [hd]
    simp [htr]

/-- A transport answering every request with HTTP 200 and parsed body
`{result: v}`, i.e. the `result` field is present and holds `v`. -/
def resultTransport (v : JsValue) : Transport := fun _ =>
  .response true 200 (.ok (.obj [("result", v)]))

/-- Witness for C4: a transport carrying `{result: {id: "A"}}` makes
`getAsset` return exactly `{id: "A"}`, and one carrying a falsy `result`
makes it fail with the protocol error. -/
theorem getAsset_exact_result_or_protocol_error_witness :
    ((JsValue.obj [("id", .str "A")]).truthy = true ∧
      ∃ s body,
        resultTransport (.obj [("id", .str "A")])
            (mkWire { method := "getAsset", id := none
                      params := .obj [("id", .str (PublicKey.ofBase58 "Addr1").toBase58)] }) =
          .response true s (.ok body) ∧
        destructure body "result" = .ok (.obj [("id", .str "A")])) ∧
    (getAsset (resultTransport .null) (PublicKey.ofBase58 "Addr1")).fst =
      .error (.readApi "No asset returned" none) :=
  ⟨getAsset_exact_result_or_protocol_error.1
      (resultTransport (.obj [("id", .str "A")])) (PublicKey.ofBase58 "Addr1")
      (.obj [("id", .str "A")]) rfl,
   getAsset_exact_result_or_protocol_error.2
      (resultTransport .null) (PublicKey.ofBase58 "Addr1") 200
      (.obj [("result", .null)]) .null rfl rfl rfl⟩

/-- A transport that never answers a successful parse with a `null` (or
`undefined`) body.  `JSON.parse` can legitimately produce `null` (the body
`"null"`), and such a body is exactly the case the client mishandles. -/
def Transport.wellParsed (t : Transport) : Prop :=
  ∀ w s body, t w = .response true s (.ok body) →
    body ≠ .null ∧ body ≠ .undefined

theorem unwrap_call_error_isReadApi (t : Transport) (req : RpcRequest)
    (msg : String) (hw : t.wellParsed) (e : ClientError)
    (h : (unwrapResult (callReadApi t req) msg).fst = .error e) :
    e.isReadApi = true := by
  rcases unwrapResult_error_cases _ _ _ h with hcall | ⟨body, hok, hd⟩ | he
  · exact callReadApi_error_isReadApi t req e hcall
  · rw [callReadApi_ok_iff] at hok
    rcases hok with ⟨s, hs⟩
    rcases hw _ _ _ hs with ⟨h1, h2⟩
    rcases destructure_not_nullish body "result" h1 h2 with ⟨r, hr⟩
    rw [hr] at hd
    simp at hd
  · rw [he]
    rfl

theorem unwrap_call_ok_truthy (t : Transport) (req : RpcRequest)
    (msg : String) (v : JsValue)
    (h : (unwrapResult (callReadApi t req) msg).fst = .ok v) :
    v.truthy = true := by
  rw [unwrapResult_ok_iff] at h
  rcases h with ⟨body, _, _, htr⟩
  exact htr

/-- Counterexample to C5 as stated: a 200 response whose body parses to
JSON `null` makes `getAsset` throw a `TypeError` from the destructuring
`const { result } = ...` — an error kind other than `ReadApiError`
escapes the client. -/
def nullBodyTransport : Transport := fun _ => .response true 200 (.ok .null)

/-- The escaping TypeError for a null parsed body (closed counterexample). -/
theorem null_body_type_error_escapes :
    (getAsset nullBodyTransport (PublicKey.ofBase58 "Addr1")).fst =
      .error (.typeError "Cannot destructure property result of null") ∧
    ClientError.isReadApi
        (.typeError "Cannot destructure property result of null")
      = false :=
  ⟨rfl, rfl⟩

/-- C5 (amended): provided the parsed response body is never JSON `null`
(or the unreachable `undefined`), every failure of every one of the four
client calls surfaces as the single `ReadApiError` kind and every success
is a truthy (never undefined) value; moreover on `getAsset` the three
transport-level failure modes carry the underlying cause: a rejected fetch
carries the network error, a non-ok response carries `Error("HTTP " +
status)`, and a body parse failure carries the parse error. -/
theorem read_api_error_uniformity :
    (∀ (t : Transport) (pk : PublicKey) (e0 : ErrorVal),
        t (mkWire { method := "getAsset", id := none
                    params := .obj [("id", .str pk.toBase58)] }) = .netError e0 →
        (getAsset t pk).fst =
          .error (.readApi "Failed to call ReadAPI" (some e0))) ∧
    (∀ (t : Transport) (pk : PublicKey) (s : Nat) (body : Except ErrorVal JsValue),
        t (mkWire { method := "getAsset", id := none
                    params := .obj [("id", .str pk.toBase58)] }) =
          .response false s body →
        (getAsset t pk).fst =
          .error (.readApi "Failed to call ReadAPI"
            (some ⟨"Error", "HTTP " ++ toString s⟩))) ∧
    (∀ (t : Transport) (pk : PublicKey) (s : Nat) (e0 : ErrorVal),
        t (mkWire { method := "getAsset", id := none
                    params := .obj [("id", .str pk.toBase58)] }) =
          .response true s (.error e0) →
        (getAsset t pk).fst =
          .error (.readApi "Failed to call ReadAPI" (some e0))) ∧
    (∀ (t : Transport), t.wellParsed →
        (∀ (pk : PublicKey) (e : ClientError),
            (getAsset t pk).fst = .error e → e.isReadApi = true) ∧
        (∀ (pk : PublicKey) (e : ClientError),
            (getAssetProof t pk).fst = .error e → e.isReadApi = true) ∧
        (∀ (input : GetAssetsByOwnerRpcInput) (e : ClientError),
            (getAssetsByOwner t input).fst = .error e → e.isReadApi = true) ∧
        (∀ (input : GetAssetsByGroupRpcInput) (e : ClientError),
            (getAssetsByGroup t input).fst = .error e → e.isReadApi = true)) ∧
    (∀ (t : Transport),
        (∀ (pk : PublicKey) (v : JsValue),
            (getAsset t pk).fst = .ok v → v.truthy = true) ∧
        (∀ (pk : PublicKey) (v : JsValue),
            (getAssetProof t pk).fst = .ok v → v.truthy = true) ∧
        (∀ (input : GetAssetsByOwnerRpcInput) (v : JsValue),
            (getAssetsByOwner t input).fst = .ok v → v.truthy = true) ∧
        (∀ (input : GetAssetsByGroupRpcInput) (v : JsValue),
            (getAssetsByGroup t input).fst = .ok v → v.truthy = true)) := by
  refine ⟨fun t pk e0 ht => ?_, fun t pk s body ht => ?_, fun t pk s e0 ht => ?_,
    fun t hw => ⟨fun pk e h => ?_, fun pk e h => ?_, fun input e h => ?_,
      fun input e h => ?_⟩,
    fun t => ⟨fun pk v h => ?_, fun pk v h => ?_, fun input v h => ?_,
      fun input v h => ?_⟩⟩
  · unfold getAsset
    have hcall : callReadApi t
        { method := "getAsset", id := none
          params := .obj [("id", .str pk.toBase58)] } =
        (.error (.readApi "Failed to call ReadAPI" (some e0)),
          [mkWire { method := "getAsset", id := none
                    params := .obj [("id", .str pk.toBase58)] }]) := by
      unfold callReadApi
      rw [ht]
    rw [hcall]
    rfl
  · unfold getAsset
    have hcall : callReadApi t
        { method := "getAsset", id := none
          params := .obj [("id", .str pk.toBase58)] } =
        (.error (.readApi "Failed to call ReadAPI"
            (some ⟨"Error", "HTTP " ++ toString s⟩)),
          [mkWire { method := "getAsset", id := none
                    params := .obj [("id", .str pk.toBase58)] }]) := by
      unfold callReadApi
      rw [ht]
      rfl
    rw [hcall]
    rfl
  · unfold getAsset
    have hcall : callReadApi t
        { method := "getAsset", id := none
          params := .obj [("id", .str pk.toBase58)] } =
        (.error (.readApi "Failed to call ReadAPI" (some e0)),
          [mkWire { method := "getAsset", id := none
                    params := .obj [("id", .str pk.toBase58)] }]) := by
      unfold callReadApi
      rw [ht]
      rfl
    rw [hcall]
    rfl
  · exact unwrap_call_error_isReadApi t _ _ hw e (by unfold getAsset at h; exact h)
  · exact unwrap_call_error_isReadApi t _ _ hw e (by unfold getAssetProof at h; exact h)
  · unfold getAssetsByOwner at h
    rcases hval : validatePagination input.page input.before input.after with e0 | u
    · rw [hval] at h
      simp at h
      rw [← h]
      rw [validatePagination_error _ _ _ _ hval]
      rfl
    · rw [hval] at h
      exact unwrap_call_error_isReadApi t _ _ hw e h
  · unfold getAssetsByGroup at h
    rcases hval : validatePagination input.page input.before input.after with e0 | u
    · rw [hval] at h
      simp at h
      rw [← h]
      rw [validatePagination_error _ _ _ _ hval]
      rfl
    · rw [hval] at h
      exact unwrap_call_error_isReadApi t _ _ hw e h
  · exact unwrap_call_ok_truthy t _ _ v (by unfold getAsset at h; exact h)
  · exact unwrap_call_ok_truthy t _ _ v (by unfold getAssetProof at h; exact h)
  · unfold getAssetsByOwner at h
    rcases hval : validatePagination input.page input.before input.after with e0 | u
    · rw [hval] at h
      simp at h
    · rw [hval] at h
      exact unwrap_call_ok_truthy t _ _ v h
  · unfold getAssetsByGroup at h
    rcases hval : validatePagination input.page input.before input.after with e0 | u
    · rw [hval] at h
      simp at h
    · rw [hval] at h
      exact unwrap_call_ok_truthy t _ _ v h

/-- A transport whose fetch promise always rejects. -/
def netFailTransport : Transport := fun _ =>
  .netError ⟨"TypeError", "fetch failed"⟩

/-- A transport always answering HTTP 500 (response not ok). -/
def httpFailTransport : Transport := fun _ =>
  .response false 500 (.ok .null)

/-- A transport answering HTTP 200 with an unparseable body. -/
def parseFailTransport : Transport := fun _ =>
  .response true 200 (.error ⟨"SyntaxError", "Unexpected token"⟩)

/-- Witness for C5, instantiating each failure mode, the error-kind closure
and the truthy-success property at concrete transports. -/
theorem read_api_error_uniformity_witness :
    (getAsset netFailTransport (PublicKey.ofBase58 "Addr1")).fst =
      .error (.readApi "Failed to call ReadAPI"
        (some ⟨"TypeError", "fetch failed"⟩)) ∧
    (getAsset httpFailTransport (PublicKey.ofBase58 "Addr1")).fst =
      .error (.readApi "Failed to call ReadAPI"
        (some ⟨"Error", "HTTP " ++ toString 500⟩)) ∧
    (getAsset parseFailTransport (PublicKey.ofBase58 "Addr1")).fst =
      .error (.readApi "Failed to call ReadAPI"
        (some ⟨"SyntaxError", "Unexpected token"⟩)) ∧
    ClientError.isReadApi (.readApi "No asset returned" none) = true ∧
    (JsValue.obj [("id", .str "A")]).truthy = true :=
  ⟨read_api_error_uniformity.1 netFailTransport (PublicKey.ofBase58 "Addr1")
      ⟨"TypeError", "fetch failed"⟩ rfl,
   read_api_error_uniformity.2.1 httpFailTransport (PublicKey.ofBase58 "Addr1")
      500 (.ok .null) rfl,
   read_api_error_uniformity.2.2.1 parseFailTransport (PublicKey.ofBase58 "Addr1")
      200 ⟨"SyntaxError", "Unexpected token"⟩ rfl,
   (read_api_error_uniformity.2.2.2.1 (resultTransport (.num 0))
      (fun w s body h => by
        cases h
        exact ⟨fun hx => JsValue.noConfusion hx,
               fun hx => JsValue.noConfusion hx⟩)).1
      (PublicKey.ofBase58 "Addr1") (.readApi "No asset returned" none) rfl,
   (read_api_error_uniformity.2.2.2.2
      (resultTransport (.obj [("id", .str "A")]))).1
      (PublicKey.ofBase58 "Addr1") (.obj [("id", .str "A")]) rfl⟩

theorem unwrap_result_falsy (v : JsValue) (hv : v.truthy = false)
    (t : Transport) (req : RpcRequest) (msg : String)
    (ht : t (mkWire req) = .response true 200 (.ok (.obj [("result", v)]))) :
    (unwrapResult (callReadApi t req) msg).fst = .error (.readApi msg none) := by
  have hcall : callReadApi t req = (.ok (.obj [("result", v)]), [mkWire req]) := by
    unfold callReadApi
    rw [ht]
    rfl
  rw [hcall]
  simp only [unwrapResult]
  have hd : destructure (JsValue.obj [("result", v)]) "result" = .ok v := by
    simp [destructure, getFieldD]
  rw [hd]
  simp [hv]

/-- C10: whenever the parsed response body carries a `result` field holding
a falsy value (`null`, `false`, `0` or `""`, absence included), all four
client methods fail with their no-result `ReadApiError` instead of
returning that value — the check `if (!result)` tests truthiness of
`result`, not the presence of the field. -/
theorem falsy_result_no_result_error :
    ∀ (v : JsValue), v.truthy = false →
    ∀ (pk : PublicKey) (oin : GetAssetsByOwnerRpcInput)
      (gin : GetAssetsByGroupRpcInput),
      validatePagination oin.page oin.before oin.after = .ok () →
      validatePagination gin.page gin.before gin.after = .ok () →
      (getAsset (resultTransport v) pk).fst =
        .error (.readApi "No asset returned" none) ∧
      (getAssetProof (resultTransport v) pk).fst =
        .error (.readApi "No asset proof returned" none) ∧
      (getAssetsByOwner (resultTransport v) oin).fst =
        .error (.readApi "No results returned" none) ∧
      (getAssetsByGroup (resultTransport v) gin).fst =
        .error (.readApi "No results returned" none) := by
  intro v hv pk oin gin hov hgv
  refine ⟨?_, ?_, ?_, ?_⟩
  · unfold getAsset
    exact unwrap_result_falsy v hv _ _ _ rfl
  · unfold getAssetProof
    exact unwrap_result_falsy v hv _ _ _ rfl
  · unfold getAssetsByOwner
    rw [hov]
    exact unwrap_result_falsy v hv _ _ _ rfl
  · unfold getAssetsByGroup
    rw [hgv]
    exact unwrap_result_falsy v hv _ _ _ rfl

/-- Witness for C10 at the present-but-falsy result value `0`. -/
theorem falsy_result_no_result_error_witness :
    (getAsset (resultTransport (.num 0)) (PublicKey.ofBase58 "Addr2")).fst =
      .error (.readApi "No asset returned" none) ∧
    (getAssetProof (resultTransport (.num 0)) (PublicKey.ofBase58 "Addr2")).fst =
      .error (.readApi "No asset proof returned" none) ∧
    (getAssetsByOwner (resultTransport (.num 0))
        { ownerAddress := "O" }).fst =
      .error (.readApi "No results returned" none) ∧
    (getAssetsByGroup (resultTransport (.num 0))
        { groupKey := "collection", groupValue := "C" }).fst =
      .error (.readApi "No results returned" none) :=
  falsy_result_no_result_error (.num 0) rfl (PublicKey.ofBase58 "Addr2")
    { ownerAddress := "O" } { groupKey := "collection", groupValue := "C" }
    rfl rfl
